import Mathlib

/-!
Verification development for the solana-copy-trade-bot repository.

This file gives a shallow embedding, in Lean 4, of the parts of the
repository that the specification's claims talk about:

* the Raydium AMM quoting path (`src/raydium/amm.rs`),
* the pure pricing helpers (`src/raydium/amm_math.rs`),
* the on-chain account layout records and the status permission table
  (`src/raydium/amm_types.rs`),
* the swap input / key records (`src/raydium/types.rs`),
* the trade classifier (`src/trade_info.rs`).

Machine integers are modelled as `Nat` with explicit bound checks exactly at
the places where the source performs checked arithmetic followed by `unwrap`,
so that overflow behaviour (a Rust panic) is visible in the model.  Fallible
Rust code is modelled with the `Outcome` type below, which distinguishes a
normal return, a returned `Err` value, and a panic — the distinction matters
because the source mixes `?`-propagation with `unwrap()` and a literal
`panic!`.

Solana public keys are modelled by their base58 string rendering (`Pubkey`
below); the source only ever compares keys for equality, and the rendering is
injective, so this is faithful.  The repository declares modules
`raydium::math`, `raydium::api_v3` and `raydium::utils` whose sources are not
part of the snapshot; the handful of functions from them that the quoting
path calls are modelled from the specification, and each such definition
carries a doc comment starting with `Modelled from the spec:`.
-/

namespace CopyBot

/-- Result of running a piece of Rust code: a normal return, a returned
`Err` (the typed-error channel of `Result`/`anyhow::Result`), or a panic. -/
inductive Outcome (α : Type) : Type where
  | ok (a : α)
  | err (msg : String)
  | panic (msg : String)
  deriving Repr, DecidableEq

/-- Sequencing of fallible Rust computations: `Err` and panics propagate. -/
def Outcome.bind {α β : Type} : Outcome α → (α → Outcome β) → Outcome β
  | .ok a, f => f a
  | .err m, _ => .err m
  | .panic m, _ => .panic m

/-- Rust `Result::unwrap()` applied to an already-run computation: a
returned `Err` is turned into a panic, everything else is unchanged. -/
def Outcome.unwrapped {α : Type} : Outcome α → Outcome α
  | .ok a => .ok a
  | .err m => .panic m
  | .panic m => .panic m

/-- The message of the panic raised by `Option::unwrap()` on `None`. -/
def unwrapNoneMsg : String := "called Option::unwrap on a None value"

/-- Rust `Option::unwrap()`: a `None` panics. -/
def unwrap {α : Type} : Option α → Outcome α
  | some a => .ok a
  | none => .panic unwrapNoneMsg

/-- Modulus of the 64-bit unsigned machine integers used by the source. -/
def U64_MOD : Nat := 2 ^ 64

/-- Modulus of the 128-bit unsigned wide integers (`U128`) used by the
pricing math. -/
def U128_MOD : Nat := 2 ^ 128

/-- Rust `u64::checked_sub` (also `U128::checked_sub` — on naturals the
check is the same): `None` exactly when the subtraction would underflow. -/
def checked_sub (a b : Nat) : Option Nat :=
  if b ≤ a then some (a - b) else none

/-- Rust `u64::checked_add`: `None` exactly on 64-bit overflow. -/
def checked_add_u64 (a b : Nat) : Option Nat :=
  if a + b < U64_MOD then some (a + b) else none

/-- Rust `u64::checked_mul`: `None` exactly on 64-bit overflow. -/
def checked_mul_u64 (a b : Nat) : Option Nat :=
  if a * b < U64_MOD then some (a * b) else none

/-- `U128::checked_mul`: `None` exactly on 128-bit overflow. -/
def checked_mul_u128 (a b : Nat) : Option Nat :=
  if a * b < U128_MOD then some (a * b) else none

/-- Rust `u64::checked_div`: `None` exactly on division by zero. -/
def checked_div (a b : Nat) : Option Nat :=
  if b = 0 then none else some (a / b)

/-- Modelled from the spec: §4.1 Fixed-Point Arithmetic Module — the trait
`CheckedCeilDiv` lives in the repository module `raydium::math`, which is not
part of the source snapshot.  Per the spec it is "a checked ceiling division"
that rounds up and fails on divide-by-zero.  Only the quotient component is
used by the callers in `src/raydium/amm_math.rs`. -/
def checked_ceil_div (a b : Nat) : Option Nat :=
  if b = 0 then none else some ((a + b - 1) / b)

/-- `U128::as_u64` — narrowing back to 64 bits; the `uint` implementation
panics when the value does not fit.  The spec (§4.5) calls this "failing
(conversion error) on truncation". -/
def as_u64 (v : Nat) : Outcome Nat :=
  if v < U64_MOD then .ok v else .panic "integer overflow when casting to u64"

/-- Swap direction from the repository module `raydium::math`
(`SwapDirection`): `Coin2PC` trades the coin side for the pc side. -/
inductive SwapDirection : Type where
  | Coin2PC
  | PC2Coin
  deriving Repr, DecidableEq

/-- Solana public key, modelled by its (injective) base58 rendering. -/
abbrev Pubkey := String

/-- Constant `WSOL` from `src/config.rs`. -/
def WSOL : Pubkey := "So11111111111111111111111111111111111111112"

/-- Constant `RAYDIUM_LIQUIDITY_POOL_V4_PROGRAM_ID` from `src/config.rs`. -/
def RAYDIUM_LIQUIDITY_POOL_V4_PROGRAM_ID : Pubkey :=
  "675kPX9MHTjS2zt1qfr1NYHuzeLXfQM9H24wFSUt1Mp8"

/-- `RaydiumFees` from `src/raydium/amm_types.rs`. -/
structure RaydiumFees : Type where
  min_separate_numerator : Nat
  min_separate_denominator : Nat
  trade_fee_numerator : Nat
  trade_fee_denominator : Nat
  pnl_numerator : Nat
  pnl_denominator : Nat
  swap_fee_numerator : Nat
  swap_fee_denominator : Nat
  deriving Repr, DecidableEq, Inhabited

/-- `RaydiumStateData` from `src/raydium/amm_types.rs`. -/
structure RaydiumStateData : Type where
  need_take_pnl_coin : Nat
  need_take_pnl_pc : Nat
  total_pnl_pc : Nat
  total_pnl_coin : Nat
  pool_open_time : Nat
  orderbook_to_init_time : Nat
  swap_coin_in_amount : Nat
  swap_pc_out_amount : Nat
  swap_acc_pc_fee : Nat
  swap_pc_in_amount : Nat
  swap_coin_out_amount : Nat
  swap_acc_coin_fee : Nat
  deriving Repr, DecidableEq, Inhabited

/-- `RaydiumAmmInfo` from `src/raydium/amm_types.rs` (padding fields
dropped; the source field `vol_max_cut_ratio` is spelled `vol_max_cut_rat`
here, and `amount_wave` keeps its source name). -/
structure RaydiumAmmInfo : Type where
  status : Nat
  nonce : Nat
  order_num : Nat
  depth : Nat
  coin_decimals : Nat
  pc_decimals : Nat
  state : Nat
  reset_flag : Nat
  min_size : Nat
  vol_max_cut_rat : Nat
  amount_wave : Nat
  coin_lot_size : Nat
  pc_lot_size : Nat
  min_price_multiplier : Nat
  max_price_multiplier : Nat
  sys_decimal_value : Nat
  fees : RaydiumFees
  state_data : RaydiumStateData
  coin_vault : Pubkey
  pc_vault : Pubkey
  coin_vault_mint : Pubkey
  pc_vault_mint : Pubkey
  lp_mint : Pubkey
  open_orders : Pubkey
  market : Pubkey
  market_program : Pubkey
  target_orders : Pubkey
  amm_owner : Pubkey
  lp_amount : Nat
  client_order_id : Nat
  deriving Repr, DecidableEq, Inhabited

/-- `LiquidityStateV4` from `src/raydium/amm_types.rs` (padding dropped; the
source fields `vol_max_cut_ratio` / `amount_wave_ratio` are spelled with
`_rat` here). -/
structure LiquidityStateV4 : Type where
  status : Nat
  nonce : Nat
  max_order : Nat
  depth : Nat
  base_decimal : Nat
  quote_decimal : Nat
  state : Nat
  reset_flag : Nat
  min_size : Nat
  vol_max_cut_rat : Nat
  amount_wave_rat : Nat
  base_lot_size : Nat
  quote_lot_size : Nat
  min_price_multiplier : Nat
  max_price_multiplier : Nat
  system_decimal_value : Nat
  min_separate_numerator : Nat
  min_separate_denominator : Nat
  trade_fee_numerator : Nat
  trade_fee_denominator : Nat
  pnl_numerator : Nat
  pnl_denominator : Nat
  swap_fee_numerator : Nat
  swap_fee_denominator : Nat
  base_need_take_pnl : Nat
  quote_need_take_pnl : Nat
  quote_total_pnl : Nat
  base_total_pnl : Nat
  pool_open_time : Nat
  punish_pc_amount : Nat
  punish_coin_amount : Nat
  orderbook_to_init_time : Nat
  swap_base_in_amount : Nat
  swap_quote_out_amount : Nat
  swap_base2quote_fee : Nat
  swap_quote_in_amount : Nat
  swap_base_out_amount : Nat
  swap_quote2base_fee : Nat
  base_vault : Pubkey
  quote_vault : Pubkey
  base_mint : Pubkey
  quote_mint : Pubkey
  lp_mint : Pubkey
  open_orders : Pubkey
  market_id : Pubkey
  market_program_id : Pubkey
  target_orders : Pubkey
  withdraw_queue : Pubkey
  lp_vault : Pubkey
  owner : Pubkey
  lp_reserve : Nat
  deriving Repr, DecidableEq, Inhabited

/-- The `impl From<LiquidityStateV4> for RaydiumAmmInfo` conversion from
`src/raydium/amm_types.rs` lines 678–738, transcribed field by field.  Note
that the source zeroes every fee field except `swap_fee_denominator`, and
zeroes the whole `state_data` block. -/
def RaydiumAmmInfo.from_liquidity_state_v4 (value : LiquidityStateV4) : RaydiumAmmInfo :=
  { status := value.status
    nonce := value.nonce
    order_num := value.max_order
    depth := value.depth
    coin_decimals := value.quote_decimal
    pc_decimals := value.base_decimal
    state := value.state
    reset_flag := value.reset_flag
    min_size := value.min_size
    vol_max_cut_rat := value.vol_max_cut_rat
    amount_wave := value.amount_wave_rat
    coin_lot_size := value.quote_lot_size
    pc_lot_size := value.base_lot_size
    min_price_multiplier := value.min_price_multiplier
    max_price_multiplier := value.max_price_multiplier
    sys_decimal_value := value.system_decimal_value
    fees :=
      { min_separate_numerator := 0
        min_separate_denominator := 0
        trade_fee_numerator := 0
        trade_fee_denominator := 0
        pnl_numerator := 0
        pnl_denominator := 0
        swap_fee_numerator := 0
        swap_fee_denominator := value.swap_fee_denominator }
    state_data :=
      { need_take_pnl_coin := 0
        need_take_pnl_pc := 0
        total_pnl_pc := 0
        total_pnl_coin := 0
        pool_open_time := 0
        orderbook_to_init_time := 0
        swap_coin_in_amount := 0
        swap_pc_out_amount := 0
        swap_acc_pc_fee := 0
        swap_pc_in_amount := 0
        swap_coin_out_amount := 0
        swap_acc_coin_fee := 0 }
    coin_vault := value.quote_vault
    pc_vault := value.base_vault
    coin_vault_mint := value.quote_mint
    pc_vault_mint := value.base_mint
    lp_mint := value.lp_mint
    open_orders := value.open_orders
    market := value.market_id
    market_program := value.market_program_id
    target_orders := value.target_orders
    amm_owner := value.owner
    lp_amount := value.lp_reserve
    client_order_id := value.max_order }

/-- `RaydiumStatus` from `src/raydium/amm_types.rs`. -/
inductive RaydiumStatus : Type where
  | Uninitialized
  | Initialized
  | Disabled
  | WithdrawOnly
  | LiquidityOnly
  | OrderBookOnly
  | SwapOnly
  | WaitingTrade
  deriving Repr, DecidableEq

/-- `RaydiumStatus::from_u64`; the source hits `unreachable!` (a panic) on
any code outside `0..=7`. -/
def RaydiumStatus.from_u64 (status : Nat) : Outcome RaydiumStatus :=
  match status with
  | 0 => .ok .Uninitialized
  | 1 => .ok .Initialized
  | 2 => .ok .Disabled
  | 3 => .ok .WithdrawOnly
  | 4 => .ok .LiquidityOnly
  | 5 => .ok .OrderBookOnly
  | 6 => .ok .SwapOnly
  | 7 => .ok .WaitingTrade
  | _ => .panic "internal error: entered unreachable code"

/-- `RaydiumStatus::orderbook_permission` from `src/raydium/amm_types.rs`
lines 287–298. -/
def RaydiumStatus.orderbook_permission : RaydiumStatus → Bool
  | .Uninitialized => false
  | .Initialized => true
  | .Disabled => false
  | .WithdrawOnly => false
  | .LiquidityOnly => false
  | .OrderBookOnly => true
  | .SwapOnly => false
  | .WaitingTrade => false

/-- Modelled from the spec: §4.5 — the direction-dispatched exact-input
curve step `Calculator::swap_token_amount_base_in` lives in the repository
module `raydium::math`, which is not part of the source snapshot.  Per the
spec, the output is `reserve_out - (reserve_in * reserve_out) / (reserve_in +
amount_in)` "computed in the wider integer type"; for `Coin2PC` the coin
vault is the input reserve.  The 128-bit division by zero is a panic. -/
def Calculator.swap_token_amount_base_in
    (amount_in pc_vault coin_vault : Nat) : SwapDirection → Outcome Nat
  | .Coin2PC =>
      if coin_vault + amount_in = 0 then .panic "attempt to divide by zero"
      else .ok (pc_vault - coin_vault * pc_vault / (coin_vault + amount_in))
  | .PC2Coin =>
      if pc_vault + amount_in = 0 then .panic "attempt to divide by zero"
      else .ok (coin_vault - pc_vault * coin_vault / (pc_vault + amount_in))

/-- Modelled from the spec: §4.5 — the exact-output inverse curve step
`Calculator::swap_token_amount_base_out` from the missing `raydium::math`
module.  Per the spec it solves the inverse constant-product for the
required input (before fee): `in = ceil(reserve_in * reserve_out /
(reserve_out - amount_out)) - reserve_in`, failing when the requested output
does not leave a positive output reserve. -/
def Calculator.swap_token_amount_base_out
    (amount_out pc_vault coin_vault : Nat) : SwapDirection → Outcome Nat
  | .Coin2PC =>
      if amount_out < pc_vault then
        .ok ((coin_vault * pc_vault + (pc_vault - amount_out) - 1) /
              (pc_vault - amount_out) - coin_vault)
      else .panic "arithmetic failure in inverse constant product"
  | .PC2Coin =>
      if amount_out < coin_vault then
        .ok ((pc_vault * coin_vault + (coin_vault - amount_out) - 1) /
              (coin_vault - amount_out) - pc_vault)
      else .panic "arithmetic failure in inverse constant product"

/-- Modelled from the spec: §4.4 Reserve Accounting — the function
`Calculator::calc_total_without_take_pnl_no_orderbook` from the missing
`raydium::math` module.  Per the spec, when the order-book path is not used
the effective "reserves are exactly the two vault balances"; the pool record
argument is kept for signature fidelity. -/
def Calculator.calc_total_without_take_pnl_no_orderbook
    (pc_amount coin_amount : Nat) (_amm : RaydiumAmmInfo) : Outcome (Nat × Nat) :=
  .ok (pc_amount, coin_amount)

/-- Reserve computation step of `RaydiumAmm::quote` (`src/raydium/amm.rs`
lines 162–169): the live code unconditionally uses the no-order-book total;
the branch on `RaydiumStatus::orderbook_permission` is commented out in the
source. -/
def quote_reserves (pc_amount coin_amount : Nat) (amm : RaydiumAmmInfo) :
    Outcome (Nat × Nat) :=
  Calculator.calc_total_without_take_pnl_no_orderbook pc_amount coin_amount amm

/-- Modelled from the spec: §4.4 — the reserve-accounting *policy* stated by
the spec, as a reference definition for the refinement claim C1: "if the
pool's status code grants order-book participation permission, reserves must
include amounts resting in the associated order book … in addition to vault
balances; otherwise reserves are exactly the two vault balances". -/
def effective_reserves_spec (permission : Bool)
    (vaults open_orders : Nat × Nat) : Nat × Nat :=
  if permission then (vaults.1 + open_orders.1, vaults.2 + open_orders.2)
  else vaults

/-- `swap_exact_amount` from `src/raydium/amm_math.rs` lines 3–52,
transcribed step by step.  Every `unwrap()` of a checked operation is a
potential panic; the `anyhow::Result` return value is always `Ok`. -/
def swap_exact_amount (pc_vault_amount coin_vault_amount : Nat)
    (swap_fee_numerator swap_fee_denominator : Nat)
    (swap_direction : SwapDirection) (amount_specified : Nat)
    (swap_base_in : Bool) : Outcome Nat :=
  if swap_base_in then
    (unwrap (checked_mul_u128 amount_specified swap_fee_numerator)).bind fun prod =>
    (unwrap (checked_ceil_div prod swap_fee_denominator)).bind fun swap_fee =>
    (unwrap (checked_sub amount_specified swap_fee)).bind fun swap_in_after_deduct_fee =>
    (Calculator.swap_token_amount_base_in swap_in_after_deduct_fee
        pc_vault_amount coin_vault_amount swap_direction).bind fun swap_amount_out =>
    as_u64 swap_amount_out
  else
    (Calculator.swap_token_amount_base_out amount_specified
        pc_vault_amount coin_vault_amount swap_direction).bind fun swap_in_before_add_fee =>
    (unwrap (checked_mul_u128 swap_in_before_add_fee swap_fee_denominator)).bind fun prod =>
    (unwrap (checked_sub swap_fee_denominator swap_fee_numerator)).bind fun denom =>
    (unwrap (checked_ceil_div prod denom)).bind fun swap_in_after_add_fee =>
    as_u64 swap_in_after_add_fee

/-- Constant `TEN_THOUSAND` from `src/raydium/amm_math.rs`. -/
def TEN_THOUSAND : Nat := 10000

/-- `max_amount_with_slippage` from `src/raydium/amm_math.rs` lines 55–61;
the checked operations are unwrapped, so failures are panics. -/
def max_amount_with_slippage (input_amount slippage_bps : Nat) : Outcome Nat :=
  (unwrap (checked_add_u64 slippage_bps TEN_THOUSAND)).bind fun s =>
  (unwrap (checked_mul_u64 input_amount s)).bind fun p =>
  (unwrap (checked_div p TEN_THOUSAND)).bind fun q =>
  .ok q

/-- `min_amount_with_slippage` from `src/raydium/amm_math.rs` lines 63–69;
the checked operations are unwrapped, so failures are panics — in
particular `TEN_THOUSAND.checked_sub(slippage_bps)` is `None` whenever
`slippage_bps > 10000`. -/
def min_amount_with_slippage (input_amount slippage_bps : Nat) : Outcome Nat :=
  (unwrap (checked_sub TEN_THOUSAND slippage_bps)).bind fun d =>
  (unwrap (checked_mul_u64 input_amount d)).bind fun p =>
  (unwrap (checked_div p TEN_THOUSAND)).bind fun q =>
  .ok q

/-- `RaydiumAmm::swap_with_slippage` from `src/raydium/amm.rs` lines
334–366: compute the raw counter-amount (the `unwrap()` on the inner
`Result` turns a returned error into a panic, though `swap_exact_amount`
only ever fails by panicking), then apply the slippage bound — minimum-out
for exact-input, maximum-in for exact-output. -/
def RaydiumAmm.swap_with_slippage (pc_vault_amount coin_vault_amount : Nat)
    (swap_fee_numerator swap_fee_denominator : Nat)
    (swap_direction : SwapDirection) (amount_specified : Nat)
    (swap_base_in : Bool) (slippage_bps : Nat) : Outcome (Nat × Nat) :=
  ((swap_exact_amount pc_vault_amount coin_vault_amount swap_fee_numerator
      swap_fee_denominator
      (match swap_direction with
        | .Coin2PC => SwapDirection.Coin2PC
        | .PC2Coin => SwapDirection.PC2Coin)
      amount_specified swap_base_in).unwrapped).bind fun q =>
  (if swap_base_in then min_amount_with_slippage q slippage_bps
    else max_amount_with_slippage q slippage_bps).bind fun t =>
  .ok (q, t)

/-- `SwapExecutionMode` from `src/raydium/types.rs`. -/
inductive SwapExecutionMode : Type where
  | ExactIn
  | ExactOut
  deriving Repr, DecidableEq

/-- `SwapExecutionMode::amount_specified_is_input`. -/
def SwapExecutionMode.amount_specified_is_input : SwapExecutionMode → Bool
  | .ExactIn => true
  | .ExactOut => false

/-- `SwapInput` from `src/raydium/types.rs`; `slippage_bps` is a `u16` in
the source, so a quote computation only ever sees values below `2 ^ 16`. -/
structure SwapInput : Type where
  input_token_mint : Pubkey
  output_token_mint : Pubkey
  slippage_bps : Nat
  amount : Nat
  mode : SwapExecutionMode
  market : Option Pubkey
  deriving Repr, DecidableEq

/-- One pool summary of the discovery page (`ApiV3StandardPool` of the
missing `raydium::api_v3` module); `mint_a` / `mint_b` stand for the
`.address` fields the source reads, which are all it uses. -/
structure ApiV3StandardPool : Type where
  mint_a : Pubkey
  mint_b : Pubkey
  program_id : Pubkey
  id : Pubkey
  deriving Repr, DecidableEq

/-- The matching condition of `RaydiumAmm::quote`'s `find_map` closure
(`src/raydium/amm.rs` lines 79–85), with Rust's `&&`-over-`||` precedence
made explicit by the parentheses: the program-id comparison belongs only to
the reversed-pair disjunct. -/
def pool_matches (pool : ApiV3StandardPool) (input output : Pubkey) : Bool :=
  (pool.mint_a == input && pool.mint_b == output) ||
  (pool.mint_a == output && pool.mint_b == input &&
    pool.program_id == RAYDIUM_LIQUIDITY_POOL_V4_PROGRAM_ID)

/-- The pool-id selection of `RaydiumAmm::quote` (`src/raydium/amm.rs`
lines 78–90): the first pool of the page (the page is requested sorted by
liquidity, descending) satisfying the matching condition. -/
def resolve_pool_id (pools : List ApiV3StandardPool) (input output : Pubkey) :
    Option Pubkey :=
  match pools with
  | [] => none
  | pool :: rest =>
      if pool_matches pool input output then some pool.id
      else resolve_pool_id rest input output

/-- Market-side keys of the hydration payload (fields of the missing
`api_v3` response type that `src/raydium/types.rs` reads). -/
structure ApiMarketKeys : Type where
  market_program_id : Pubkey
  market_id : Pubkey
  market_authority : Pubkey
  market_base_vault : Pubkey
  market_quote_vault : Pubkey
  market_bids : Pubkey
  market_asks : Pubkey
  market_event_queue : Pubkey
  deriving Repr, DecidableEq

/-- Inner key block of the hydration payload (fields read by
`src/raydium/types.rs`; `mint_lp` stands for the `.address` the source
reads). -/
structure ApiKeys : Type where
  authority : Pubkey
  open_orders : Option Pubkey
  target_orders : Option Pubkey
  mint_lp : Pubkey
  market : Option ApiMarketKeys
  deriving Repr, DecidableEq

/-- `ApiV3StandardPoolKeys` of the missing `api_v3` module, restricted to
the fields the source reads (`mint_a` / `mint_b` stand for the `.address`
fields; `vault_a` / `vault_b` for `vault.a` / `vault.b`). -/
structure ApiV3StandardPoolKeys : Type where
  id : Pubkey
  mint_a : Pubkey
  mint_b : Pubkey
  vault_a : Pubkey
  vault_b : Pubkey
  keys : ApiKeys
  deriving Repr, DecidableEq

/-- `AmmKeys` from `src/raydium/types.rs`. -/
structure AmmKeys : Type where
  amm_pool : Pubkey
  amm_coin_mint : Pubkey
  amm_pc_mint : Pubkey
  amm_authority : Pubkey
  amm_target : Pubkey
  amm_coin_vault : Pubkey
  amm_pc_vault : Pubkey
  amm_lp_mint : Pubkey
  amm_open_order : Pubkey
  market_program : Pubkey
  market : Pubkey
  nonce : Nat
  deriving Repr, DecidableEq

/-- `MarketKeys` from `src/raydium/types.rs`. -/
structure MarketKeys : Type where
  event_queue : Pubkey
  bids : Pubkey
  asks : Pubkey
  coin_vault : Pubkey
  pc_vault : Pubkey
  vault_signer_key : Pubkey
  deriving Repr, DecidableEq

/-- `impl TryFrom<&ApiV3StandardPoolKeys> for AmmKeys` from
`src/raydium/types.rs` lines 128–160 (the nonce is hard-coded to 0 with a
`// random` comment in the source). -/
def AmmKeys.try_from (keys : ApiV3StandardPoolKeys) : Outcome AmmKeys :=
  match keys.keys.market with
  | none => .err "market keys should be present for amm"
  | some market_keys =>
      match keys.keys.target_orders with
      | none => .err "target orders should be present for amm"
      | some amm_target =>
          match keys.keys.open_orders with
          | none => .err "open orders should be present for amm"
          | some amm_open_order =>
              .ok { amm_pool := keys.id
                    amm_coin_mint := keys.mint_a
                    amm_pc_mint := keys.mint_b
                    amm_authority := keys.keys.authority
                    amm_target := amm_target
                    amm_coin_vault := keys.vault_a
                    amm_pc_vault := keys.vault_b
                    amm_lp_mint := keys.keys.mint_lp
                    amm_open_order := amm_open_order
                    market_program := market_keys.market_program_id
                    market := market_keys.market_id
                    nonce := 0 }

/-- `impl TryFrom<&ApiV3StandardPoolKeys> for MarketKeys` from
`src/raydium/types.rs` lines 113–126. -/
def MarketKeys.try_from (keys : ApiV3StandardPoolKeys) : Outcome MarketKeys :=
  match keys.keys.market with
  | none => .err "market keys should be present for amm"
  | some market_keys =>
      .ok { event_queue := market_keys.market_event_queue
            bids := market_keys.market_bids
            asks := market_keys.market_asks
            coin_vault := market_keys.market_base_vault
            pc_vault := market_keys.market_quote_vault
            vault_signer_key := market_keys.market_authority }

/-- The SPL token account state `spl_token::state::Account`, restricted to
the one field the quoting path reads. -/
structure SplTokenAccount : Type where
  amount : Nat
  deriving Repr, DecidableEq

/-- A fetched on-chain account, abstracted by the results of the three
decoders the quoting path may apply to its byte buffer: transmuting it as a
`LiquidityStateV4` (`some` iff the buffer length matches that layout, in
which case the decoded record is carried), transmuting it as
`RaydiumTargetOrders` (only success/failure matters — the decoded value is
discarded by the source), and unpacking it as an SPL token account.  Every
concrete byte buffer determines such a triple, so quantifying over triples
covers all buffers. -/
structure AccountView : Type where
  liquidity : Option LiquidityStateV4
  target_orders_ok : Bool
  spl : Option SplTokenAccount
  deriving Repr, DecidableEq

/-- The external world a quote computation reads, passed explicitly: the
discovery page returned by `fetch_pool_by_mints` (sorted by liquidity,
descending), the hydration response of `fetch_pool_keys_by_ids`, and the
batch result of `get_multiple_account_data` for the seven requested
addresses (`None` = account not found). -/
structure QuoteEnv : Type where
  pools : List ApiV3StandardPool
  pool_keys : List ApiV3StandardPoolKeys
  accounts : List (Option AccountView)
  deriving Repr, DecidableEq

/-- `RaydiumAmmQuote` from `src/raydium/amm_types.rs`. -/
structure RaydiumAmmQuote : Type where
  market : Pubkey
  input_mint : Pubkey
  output_mint : Pubkey
  amount : Nat
  other_amount : Nat
  other_amount_threshold : Nat
  amount_specified_is_input : Bool
  input_mint_decimals : Nat
  output_mint_decimals : Nat
  amm_keys : AmmKeys
  market_keys : MarketKeys
  deriving Repr, DecidableEq

/-- `RaydiumAmm::quote` from `src/raydium/amm.rs` lines 54–280, transcribed
control step by control step against the environment `env`:

* identical mints → returned error (lines 55–60);
* pool-id resolution via `resolve_pool_id` when no explicit market is given
  (lines 62–95);
* key hydration and the two `TryFrom` conversions (lines 97–108);
* the batched account fetch: `array_ref![rsps, 0, 7]` panics when fewer
  than seven entries come back; each used account is `unwrap()`ed (a panic
  on `None`); the pool-state transmute failure is `unwrap()`ed (a panic,
  line 146) while the target-orders transmute failure is `?`-propagated (a
  returned error, line 154); the two vault unpacks are `unwrap()`ed;
* the reserve step `quote_reserves` (lines 162–169) — the order-book branch
  is commented out in the source, so the open-orders / market / event-queue
  accounts are fetched but never decoded;
* the pricing call (lines 242–251) and the quote record construction
  (lines 257–277);
* the unconditional `panic!("")` at line 278, which precedes — and makes
  unreachable — the `Ok(())` at line 279. -/
def RaydiumAmm.quote (env : QuoteEnv) (swap_input : SwapInput) : Outcome Unit :=
  if swap_input.input_token_mint = swap_input.output_token_mint then
    .err "Input token cannot equal output token"
  else
    let pool_id :=
      match swap_input.market with
      | some m => some m
      | none =>
          resolve_pool_id env.pools swap_input.input_token_mint
            swap_input.output_token_mint
    match pool_id with
    | none => .err "Failed to get market for swap"
    | some pool_id =>
        match env.pool_keys.head? with
        | none => .err "Failed to get pool keys for raydium standard pool"
        | some keys =>
            (AmmKeys.try_from keys).bind fun amm_keys =>
            (MarketKeys.try_from keys).bind fun market_keys =>
            if env.accounts.length < 7 then .panic "index out of bounds"
            else
              (unwrap (env.accounts.getD 0 none)).bind fun amm_account =>
              (unwrap amm_account.liquidity).bind fun state =>
              let amm := RaydiumAmmInfo.from_liquidity_state_v4 state
              (unwrap (env.accounts.getD 1 none)).bind fun amm_target_account =>
              (if amm_target_account.target_orders_ok then .ok ()
                else Outcome.err "transmute of the target orders account failed").bind fun _ =>
              (unwrap (env.accounts.getD 2 none)).bind fun pc_vault_account =>
              (unwrap pc_vault_account.spl).bind fun amm_pc_vault =>
              (unwrap (env.accounts.getD 3 none)).bind fun coin_vault_account =>
              (unwrap coin_vault_account.spl).bind fun amm_coin_vault =>
              ((quote_reserves amm_pc_vault.amount amm_coin_vault.amount
                  amm).unwrapped).bind fun ab =>
              let coin_to_pc :=
                swap_input.input_token_mint = amm_keys.amm_coin_mint ∧
                  swap_input.output_token_mint = amm_keys.amm_pc_mint
              let direction :=
                if coin_to_pc then SwapDirection.Coin2PC else SwapDirection.PC2Coin
              let amount_specified_is_input :=
                swap_input.mode.amount_specified_is_input
              (RaydiumAmm.swap_with_slippage ab.1 ab.2
                  amm.fees.swap_fee_numerator amm.fees.swap_fee_denominator
                  direction swap_input.amount amount_specified_is_input
                  swap_input.slippage_bps).bind fun result =>
              let _quote : RaydiumAmmQuote :=
                { market := pool_id
                  input_mint := swap_input.input_token_mint
                  output_mint := swap_input.output_token_mint
                  amount := swap_input.amount
                  other_amount := result.1
                  other_amount_threshold := result.2
                  amount_specified_is_input := amount_specified_is_input
                  input_mint_decimals :=
                    (if coin_to_pc then amm.coin_decimals else amm.pc_decimals) % 256
                  output_mint_decimals :=
                    (if coin_to_pc then amm.pc_decimals else amm.coin_decimals) % 256
                  amm_keys := amm_keys
                  market_keys := market_keys }
              .panic ""

/-- `UiTokenAmount` of the notification protocol, restricted to the two
fields the classifier reads.  The source amount is an `f64`; the classifier
only copies amounts and compares them (no arithmetic), so the amounts are
modelled as rationals, on which the float comparisons coincide. -/
structure UiTokenAmount : Type where
  ui_amount : Rat
  decimals : Nat
  deriving Repr, DecidableEq

/-- One entry of `pre_token_balances` / `post_token_balances`. -/
structure TokenBalance : Type where
  owner : String
  mint : String
  ui_token_amount : Option UiTokenAmount
  deriving Repr, DecidableEq

/-- The transaction metadata of a notification, restricted to the fields
the classifier reads. -/
structure TransactionMeta : Type where
  err : Option String
  pre_token_balances : List TokenBalance
  post_token_balances : List TokenBalance
  deriving Repr, DecidableEq

/-- The transaction message.  `recent_blockhash` carries the raw bytes.
Each account key arrives as a raw byte vector which
`Pubkey::try_from` accepts iff it is exactly 32 bytes long; a key is
modelled as `some s` (with `s` its base58 rendering, which is all the
source ever uses and which determines the bytes) or `none` for a vector of
the wrong length. -/
structure TxMessage : Type where
  recent_blockhash : List Nat
  account_keys : List (Option Pubkey)
  deriving Repr, DecidableEq

/-- The inner transaction envelope (`transaction.transaction`). -/
structure InnerTransaction : Type where
  message : Option TxMessage
  deriving Repr, DecidableEq

/-- The per-transaction payload of a notification.  `signature` carries the
raw signature bytes abstracted the same way as account keys:
`Signature::try_from` succeeds iff the vector is 64 bytes, and the source
only uses the debug rendering of the parsed signature. -/
structure TransactionInfo : Type where
  signature : Option String
  transaction : Option InnerTransaction
  meta : Option TransactionMeta
  deriving Repr, DecidableEq

/-- `SubscribeUpdateTransaction`, the notification consumed by the
classifier. -/
structure SubscribeUpdateTransaction : Type where
  slot : Nat
  transaction : Option TransactionInfo
  deriving Repr, DecidableEq

/-- `TradeType` from `src/trade_info.rs`. -/
inductive TradeType : Type where
  | Buy
  | Sell
  | Unknown
  deriving Repr, DecidableEq

/-- `TokenAmountList` from `src/trade_info.rs`. -/
structure TokenAmountList : Type where
  token_pre_amount : Rat
  token_post_amount : Rat
  deriving Repr, DecidableEq

/-- `SolAmountList` from `src/trade_info.rs`. -/
structure SolAmountList : Type where
  sol_pre_amount : Rat
  sol_post_amount : Rat
  deriving Repr, DecidableEq

/-- `TradeInfoFromToken` from `src/trade_info.rs` (the TradeRecord of the
spec).  `recent_blockhash` keeps the raw 32 bytes. -/
structure TradeInfoFromToken : Type where
  slot : Nat
  recent_blockhash : List Nat
  signature : String
  target : String
  mint : String
  token_amount_list : TokenAmountList
  sol_amount_list : SolAmountList
  pool : String
  decimal : Nat
  trade_type : TradeType
  deriving Repr, DecidableEq

/-- The `ui_token_amount.as_ref().map(|ui| ui.ui_amount).unwrap_or(0_f64)`
pattern of the classifier. -/
def balance_amount (b : TokenBalance) : Rat :=
  match b.ui_token_amount with
  | some ui => ui.ui_amount
  | none => 0

/-- The `ui_token_amount.as_ref().map(|ui| ui.decimals).unwrap_or(d)`
pattern of the classifier. -/
def balance_decimals (b : TokenBalance) (d : Nat) : Nat :=
  match b.ui_token_amount with
  | some ui => ui.decimals
  | none => d

/-- The mint / pool identification loop of `TradeInfoFromToken::from_update`
(`src/trade_info.rs` lines 97–105, re-run over the pre-balances at lines
107–115), threading the two mutable strings `(mint, bonding_curve)` in
program order: within one iteration the `bonding_curve` update is visible
to the mint test. -/
def scan_mint_and_pool (target : String) :
    List TokenBalance → String → String → String × String
  | [], mint, bonding_curve => (mint, bonding_curve)
  | b :: rest, mint, bonding_curve =>
      let bonding_curve' :=
        if b.owner ≠ target ∧ b.mint ≠ WSOL then b.owner else bonding_curve
      let mint' :=
        if (b.owner = target ∨ b.owner = bonding_curve') ∧ b.mint ≠ WSOL then
          b.mint
        else mint
      scan_mint_and_pool target rest mint' bonding_curve'

/-- The pre-balance accumulation loop of `from_update` (lines 126–147):
state `(sol_pre, token_pre, mint_decimal)`; on a target-owned entry of the
traded mint the decimal is taken with default 6. -/
def scan_pre_balances (target mint : String) :
    List TokenBalance → Rat × Rat × Nat → Rat × Rat × Nat
  | [], acc => acc
  | b :: rest, (sol_pre, token_pre, dec) =>
      let acc :=
        if b.owner = target then
          if b.mint = WSOL then (balance_amount b, token_pre, dec)
          else if b.mint = mint then
            (sol_pre, balance_amount b, balance_decimals b 6)
          else (sol_pre, token_pre, dec)
        else (sol_pre, token_pre, dec)
      scan_pre_balances target mint rest acc

/-- The post-balance accumulation loop of `from_update` (lines 149–170):
like the pre loop, but the decimal default is the current value. -/
def scan_post_balances (target mint : String) :
    List TokenBalance → Rat × Rat × Nat → Rat × Rat × Nat
  | [], acc => acc
  | b :: rest, (sol_post, token_post, dec) =>
      let acc :=
        if b.owner = target then
          if b.mint = WSOL then (balance_amount b, token_post, dec)
          else if b.mint = mint then
            (sol_post, balance_amount b, balance_decimals b dec)
          else (sol_post, token_post, dec)
        else (sol_post, token_post, dec)
      scan_post_balances target mint rest acc

/-- `TradeInfoFromToken::from_update` from `src/trade_info.rs` lines
43–226, transcribed in program order:

* missing transaction payload → returned error (line 211);
* the signature parse never fails hard (line 56–59);
* missing inner transaction or message → returned error while extracting
  the recent blockhash (lines 60–67); `Hash::new` panics when the blockhash
  slice is not exactly 32 bytes (line 68);
* `account_keys[0]` (line 88) is a raw index: an empty key list panics
  before the metadata is ever consulted; a malformed first key is a
  returned error;
* missing metadata → returned error (line 172); a set `meta.err` → returned
  error (lines 93–95);
* mint/pool identification over post- then pre-balances, hard error when no
  mint is found (lines 97–123);
* balance accumulation and the Buy/Sell/Unknown comparison (lines
  126–197). -/
def TradeInfoFromToken.from_update (txn : SubscribeUpdateTransaction) :
    Outcome TradeInfoFromToken :=
  match txn.transaction with
  | none => .err "Transaction is None"
  | some transaction =>
      let signature :=
        match transaction.signature with
        | some s => s
        | none => ""
      match transaction.transaction with
      | none => .err "Failed to get recent blockhash"
      | some inner =>
          match inner.message with
          | none => .err "Failed to get recent blockhash"
          | some message =>
              if message.recent_blockhash.length ≠ 32 then
                .panic "failed to build a hash from a slice of the wrong length"
              else
                match message.account_keys with
                | [] => .panic "index out of bounds: the len is 0 but the index is 0"
                | key0 :: _ =>
                    match key0 with
                    | none => .err "Failed to parse target pubkey"
                    | some target =>
                        match transaction.meta with
                        | none => .err "Transaction meta is None"
                        | some meta =>
                            match meta.err with
                            | some _ => .err "Error in transaction"
                            | none =>
                                let mp :=
                                  scan_mint_and_pool target
                                    meta.post_token_balances "" ""
                                let mp :=
                                  if mp.1 = "" then
                                    scan_mint_and_pool target
                                      meta.pre_token_balances "" mp.2
                                  else mp
                                if mp.1 = "" then .err "mint is None"
                                else
                                  let pre :=
                                    scan_pre_balances target mp.1
                                      meta.pre_token_balances (0, 0, 6)
                                  let post :=
                                    scan_post_balances target mp.1
                                      meta.post_token_balances (0, 0, pre.2.2)
                                  let trade_type :=
                                    if post.2.1 > pre.2.1 then TradeType.Buy
                                    else if pre.2.1 > post.2.1 then TradeType.Sell
                                    else TradeType.Unknown
                                  .ok { slot := txn.slot
                                        recent_blockhash := message.recent_blockhash
                                        signature := signature
                                        target := target
                                        mint := mp.1
                                        token_amount_list :=
                                          { token_pre_amount := pre.2.1
                                            token_post_amount := post.2.1 }
                                        sol_amount_list :=
                                          { sol_pre_amount := pre.1
                                            sol_post_amount := post.1 }
                                        pool := mp.2
                                        decimal := post.2.2
                                        trade_type := trade_type }

/-! Concrete sample data used by counterexamples and witnesses. -/

/-- A concrete decoded pool account: status `SwapOnly`, fee 25/10000. -/
def sample_state : LiquidityStateV4 :=
  { (default : LiquidityStateV4) with
      status := 6
      base_decimal := 9
      quote_decimal := 6
      swap_fee_numerator := 25
      swap_fee_denominator := 10000 }

/-- A concrete hydration payload with every optional key present. -/
def sample_keys : ApiV3StandardPoolKeys :=
  { id := "POOL"
    mint_a := "COIN"
    mint_b := "PC"
    vault_a := "VAULTA"
    vault_b := "VAULTB"
    keys :=
      { authority := "AUTH"
        open_orders := some "OPENORDERS"
        target_orders := some "TARGETORDERS"
        mint_lp := "LP"
        market := some
          { market_program_id := "MKTPROG"
            market_id := "MKTID"
            market_authority := "MKTAUTH"
            market_base_vault := "MKTBASEVAULT"
            market_quote_vault := "MKTQUOTEVAULT"
            market_bids := "BIDS"
            market_asks := "ASKS"
            market_event_queue := "EVENTQ" } } }

/-- An account whose buffer decodes as the sample pool state. -/
def acct_amm : AccountView :=
  { liquidity := some sample_state, target_orders_ok := false, spl := none }

/-- An account whose buffer transmutes as target orders. -/
def acct_target : AccountView :=
  { liquidity := none, target_orders_ok := true, spl := none }

/-- The pc vault token account (balance 2,000,000). -/
def acct_pc_vault : AccountView :=
  { liquidity := none, target_orders_ok := false, spl := some { amount := 2000000 } }

/-- The coin vault token account (balance 1,000,000). -/
def acct_coin_vault : AccountView :=
  { liquidity := none, target_orders_ok := false, spl := some { amount := 1000000 } }

/-- A filler account for the three fetched-but-undecoded addresses. -/
def acct_filler : AccountView :=
  { liquidity := none, target_orders_ok := false, spl := none }

/-- An environment in which every step of the quote succeeds: the pool is
given explicitly, the hydration payload is complete, and all seven accounts
come back and decode. -/
def quote_env_ok : QuoteEnv :=
  { pools := []
    pool_keys := [sample_keys]
    accounts :=
      [some acct_amm, some acct_target, some acct_pc_vault,
        some acct_coin_vault, some acct_filler, some acct_filler,
        some acct_filler] }

/-- The same environment with the pool account missing from the batch
result. -/
def quote_env_missing : QuoteEnv :=
  { quote_env_ok with
      accounts :=
        [none, some acct_target, some acct_pc_vault, some acct_coin_vault,
          some acct_filler, some acct_filler, some acct_filler] }

/-- A well-formed swap request: 10,000 units of COIN for PC, exact-in,
100 bps slippage, explicit pool. -/
def sample_swap_input : SwapInput :=
  { input_token_mint := "COIN"
    output_token_mint := "PC"
    slippage_bps := 100
    amount := 10000
    mode := .ExactIn
    market := some "POOL" }

/-- A pool record whose status code is 5 (`OrderBookOnly`, which grants
order-book participation permission). -/
def amm_status5 : RaydiumAmmInfo :=
  { (default : RaydiumAmmInfo) with status := 5 }

/-- A discovery-page entry whose pair matches `(A, B)` in forward order but
whose program id is not the Raydium V4 program id. -/
def foreign_pool : ApiV3StandardPool :=
  { mint_a := "A", mint_b := "B", program_id := "OTHERPROGRAM", id := "P1" }

/-- A notification matching the spec's classifier example: the target `T`
holds base (WSOL) 10 → 8 and mint `X` 5 → 7. -/
def buy_notification : SubscribeUpdateTransaction :=
  { slot := 77
    transaction := some
      { signature := some "SIG"
        transaction := some
          { message := some
              { recent_blockhash := List.replicate 32 0
                account_keys := [some "T"] } }
        meta := some
          { err := none
            pre_token_balances :=
              [ { owner := "T", mint := WSOL,
                  ui_token_amount := some { ui_amount := 10, decimals := 9 } },
                { owner := "T", mint := "X",
                  ui_token_amount := some { ui_amount := 5, decimals := 6 } } ]
            post_token_balances :=
              [ { owner := "T", mint := WSOL,
                  ui_token_amount := some { ui_amount := 8, decimals := 9 } },
                { owner := "T", mint := "X",
                  ui_token_amount := some { ui_amount := 7, decimals := 6 } } ] } } }

/-- The trade record the classifier produces for `buy_notification`. -/
def buy_record : TradeInfoFromToken :=
  { slot := 77
    recent_blockhash := List.replicate 32 0
    signature := "SIG"
    target := "T"
    mint := "X"
    token_amount_list := { token_pre_amount := 5, token_post_amount := 7 }
    sol_amount_list := { sol_pre_amount := 10, sol_post_amount := 8 }
    pool := ""
    decimal := 6
    trade_type := .Buy }

/-- A notification with a transaction body and metadata whose `err` field
is set, but whose message has an empty account-key list. -/
def erring_notification : SubscribeUpdateTransaction :=
  { slot := 1
    transaction := some
      { signature := some "SIG"
        transaction := some
          { message := some
              { recent_blockhash := List.replicate 32 0
                account_keys := [] } }
        meta := some
          { err := some "InstructionError"
            pre_token_balances := []
            post_token_balances := [] } } }

/-- Metadata with `err` set (for the amended C8 witness). -/
def erring_ok_meta : TransactionMeta :=
  { err := some "InstructionError"
    pre_token_balances := []
    post_token_balances := [] }

/-- A transaction payload with a well-formed preamble (32-byte blockhash,
one valid account key) and erring metadata. -/
def erring_ok_tinfo : TransactionInfo :=
  { signature := some "SIG"
    transaction := some
      { message := some
          { recent_blockhash := List.replicate 32 0
            account_keys := [some "T"] } }
    meta := some erring_ok_meta }

/-- The notification wrapping `erring_ok_tinfo`. -/
def erring_ok_notification : SubscribeUpdateTransaction :=
  { slot := 1, transaction := some erring_ok_tinfo }

/-- Well-formedness of the inner message as far as the statements executed
before the metadata check are concerned: the blockhash slice is 32 bytes
and the account-key list is non-empty (both conditions are only about
statements that run before `meta.err` is consulted; a missing envelope or
message returns an error even earlier, so those cases are unconstrained). -/
def message_preamble_ok (t : TransactionInfo) : Prop :=
  match t.transaction with
  | none => True
  | some inner =>
      match inner.message with
      | none => True
      | some message =>
          message.recent_blockhash.length = 32 ∧ message.account_keys ≠ []

/-! Helper lemmas for extracting facts from successful `Outcome` chains. -/

theorem bind_ok {α β : Type} {o : Outcome α} {f : α → Outcome β} {b : β}
    (h : o.bind f = .ok b) : ∃ a, o = .ok a ∧ f a = .ok b := by
  cases o with
  | ok a => exact ⟨a, rfl, h⟩
  | err m => exact absurd h (by simp [Outcome.bind])
  | panic m => exact absurd h (by simp [Outcome.bind])

theorem unwrapped_ok {α : Type} {o : Outcome α} {a : α}
    (h : o.unwrapped = .ok a) : o = .ok a := by
  cases o <;> simp_all [Outcome.unwrapped]

theorem unwrap_ok {α : Type} {o : Option α} {a : α}
    (h : unwrap o = .ok a) : o = some a := by
  cases o <;> simp_all [unwrap]

theorem checked_sub_some {a b c : Nat} (h : checked_sub a b = some c) :
    b ≤ a ∧ c = a - b := by
  unfold checked_sub at h
  split at h <;> simp_all

theorem checked_add_u64_some {a b c : Nat} (h : checked_add_u64 a b = some c) :
    a + b < U64_MOD ∧ c = a + b := by
  unfold checked_add_u64 at h
  split at h <;> simp_all

theorem checked_mul_u64_some {a b c : Nat} (h : checked_mul_u64 a b = some c) :
    a * b < U64_MOD ∧ c = a * b := by
  unfold checked_mul_u64 at h
  split at h <;> simp_all

theorem checked_mul_u128_some {a b c : Nat} (h : checked_mul_u128 a b = some c) :
    a * b < U128_MOD ∧ c = a * b := by
  unfold checked_mul_u128 at h
  split at h <;> simp_all

theorem checked_div_some {a b c : Nat} (h : checked_div a b = some c) :
    b ≠ 0 ∧ c = a / b := by
  unfold checked_div at h
  split at h <;> simp_all

theorem checked_ceil_div_some {a b c : Nat} (h : checked_ceil_div a b = some c) :
    b ≠ 0 ∧ c = (a + b - 1) / b := by
  unfold checked_ceil_div at h
  split at h <;> simp_all

theorem as_u64_ok {v a : Nat} (h : as_u64 v = .ok a) :
    v < U64_MOD ∧ a = v := by
  unfold as_u64 at h
  split at h <;> simp_all

/-- The direction re-match in `swap_with_slippage` is the identity. -/
theorem direction_rematch (dir : SwapDirection) :
    (match dir with
      | .Coin2PC => SwapDirection.Coin2PC
      | .PC2Coin => SwapDirection.PC2Coin) = dir := by
  cases dir <;> rfl

/-- Anatomy of a successful `min_amount_with_slippage` run. -/
theorem min_amount_ok {a s t : Nat} (h : min_amount_with_slippage a s = .ok t) :
    s ≤ 10000 ∧ a * (10000 - s) < U64_MOD ∧ t = a * (10000 - s) / 10000 := by
  unfold min_amount_with_slippage at h
  obtain ⟨d, hd, h⟩ := bind_ok h
  obtain ⟨hd1, hd2⟩ := checked_sub_some (unwrap_ok hd)
  obtain ⟨p, hp, h⟩ := bind_ok h
  obtain ⟨hp1, hp2⟩ := checked_mul_u64_some (unwrap_ok hp)
  obtain ⟨q, hq, h⟩ := bind_ok h
  obtain ⟨-, hq2⟩ := checked_div_some (unwrap_ok hq)
  simp only [TEN_THOUSAND] at hd1 hd2 hq2
  subst hd2
  subst hp2
  subst hq2
  simp only [Outcome.ok.injEq] at h
  exact ⟨hd1, hp1, h.symm⟩

/-- Anatomy of a successful `max_amount_with_slippage` run. -/
theorem max_amount_ok {a s t : Nat} (h : max_amount_with_slippage a s = .ok t) :
    s + 10000 < U64_MOD ∧ a * (s + 10000) < U64_MOD ∧
      t = a * (s + 10000) / 10000 := by
  unfold max_amount_with_slippage at h
  obtain ⟨d, hd, h⟩ := bind_ok h
  obtain ⟨hd1, hd2⟩ := checked_add_u64_some (unwrap_ok hd)
  obtain ⟨p, hp, h⟩ := bind_ok h
  obtain ⟨hp1, hp2⟩ := checked_mul_u64_some (unwrap_ok hp)
  obtain ⟨q, hq, h⟩ := bind_ok h
  obtain ⟨-, hq2⟩ := checked_div_some (unwrap_ok hq)
  simp only [TEN_THOUSAND] at hd1 hd2 hq2
  subst hd2
  subst hp2
  subst hq2
  simp only [Outcome.ok.injEq] at h
  exact ⟨hd1, hp1, h.symm⟩

/-- Anatomy of a successful `swap_with_slippage` run: the raw quote is the
`swap_exact_amount` result, and the threshold is the slippage-adjusted
value of the raw quote. -/
theorem swap_with_slippage_ok {pc coin num den amt slip q t : Nat}
    {dir : SwapDirection} {base_in : Bool}
    (h : RaydiumAmm.swap_with_slippage pc coin num den dir amt base_in slip =
      .ok (q, t)) :
    swap_exact_amount pc coin num den dir amt base_in = .ok q ∧
      (if base_in then min_amount_with_slippage q slip
        else max_amount_with_slippage q slip) = .ok t := by
  unfold RaydiumAmm.swap_with_slippage at h
  rw [direction_rematch] at h
  obtain ⟨q', hq, h⟩ := bind_ok h
  obtain ⟨t', ht, h⟩ := bind_ok h
  simp only [Outcome.ok.injEq, Prod.mk.injEq] at h
  obtain ⟨rfl, rfl⟩ := h
  exact ⟨unwrapped_ok hq, ht⟩

/-- Claim C5: with reserves (in = 1,000,000, out = 2,000,000), fee 25/10000,
exact-input amount 10,000 and slippage 100 bps, the computation produces
exactly fee = ceil(10000·25/10000) = 25, amount-after-fee 9975, output
2,000,000 − (1,000,000·2,000,000)/(1,000,000 + 9975) in exact integer
arithmetic, and threshold = output·9900/10000, bit for bit.  The input
reserve is the coin vault, so the direction is `Coin2PC`. -/
theorem claim_C5_pricing_example :
    checked_ceil_div (10000 * 25) 10000 = some 25 ∧
    10000 - 25 = 9975 ∧
    RaydiumAmm.swap_with_slippage 2000000 1000000 25 10000 .Coin2PC 10000
        true 100 =
      .ok (2000000 - 1000000 * 2000000 / (1000000 + 9975),
           (2000000 - 1000000 * 2000000 / (1000000 + 9975)) * 9900 / 10000) := by
  decide

/-- Claim C6: whenever an exact-input swap computation returns a result,
the returned threshold is at most the returned raw quote. -/
theorem claim_C6_threshold_le :
    ∀ (pc coin num den amt slip q t : Nat) (dir : SwapDirection),
      RaydiumAmm.swap_with_slippage pc coin num den dir amt true slip =
          .ok (q, t) →
        t ≤ q := by
  intro pc coin num den amt slip q t dir h
  obtain ⟨-, hmin⟩ := swap_with_slippage_ok h
  simp only [if_pos rfl] at hmin
  obtain ⟨hs, -, ht⟩ := min_amount_ok hmin
  have h1 : q * (10000 - slip) ≤ q * 10000 :=
    Nat.mul_le_mul (le_refl q) (by omega)
  omega

/-- Claim C7: with slippage 0, in both exact-input and exact-output mode,
a returned threshold equals the returned raw quote exactly. -/
theorem claim_C7_zero_slippage :
    ∀ (pc coin num den amt q t : Nat) (dir : SwapDirection) (base_in : Bool),
      RaydiumAmm.swap_with_slippage pc coin num den dir amt base_in 0 =
          .ok (q, t) →
        t = q := by
  intro pc coin num den amt q t dir base_in h
  obtain ⟨-, hadj⟩ := swap_with_slippage_ok h
  cases base_in with
  | true =>
      simp only [if_pos rfl] at hadj
      obtain ⟨-, -, ht⟩ := min_amount_ok hadj
      omega
  | false =>
      rw [if_neg (by simp)] at hadj
      obtain ⟨-, -, ht⟩ := max_amount_ok hadj
      omega

/-- Claim C10: for every representable slippage value above 10,000 bps the
exact-input slippage bound hits the failing branch of the checked
subtraction `10000 - slippage_bps` and panics (for every input amount),
instead of returning an error value — so the function can only be total
when `slippage_bps ≤ 10000`. -/
theorem claim_C10_overflow_panic :
    ∀ (input_amount slippage_bps : Nat),
      10000 < slippage_bps → slippage_bps < 2 ^ 16 →
        min_amount_with_slippage input_amount slippage_bps =
          .panic unwrapNoneMsg := by
  intro input_amount slippage_bps h1 _h2
  unfold min_amount_with_slippage
  have hsub : checked_sub TEN_THOUSAND slippage_bps = none := by
    unfold checked_sub TEN_THOUSAND
    exact if_neg (by omega)
  rw [hsub]
  rfl

/-- Witness for C10 at slippage 10,001 bps and amount 5. -/
theorem claim_C10_overflow_panic_witness :
    min_amount_with_slippage 5 10001 = .panic unwrapNoneMsg :=
  claim_C10_overflow_panic 5 10001 (by norm_num) (by norm_num)

/-- With a zero fee numerator, a returning exact-input computation returns
exactly the no-fee curve output on the full specified amount. -/
theorem swap_exact_amount_zero_fee_base_in {pc coin den amt r : Nat}
    {dir : SwapDirection}
    (h : swap_exact_amount pc coin 0 den dir amt true = .ok r) :
    Calculator.swap_token_amount_base_in amt pc coin dir = .ok r := by
  unfold swap_exact_amount at h
  rw [if_pos rfl] at h
  rw [show checked_mul_u128 amt 0 = some 0 by
        unfold checked_mul_u128
        rw [Nat.mul_zero, if_pos (by norm_num [U128_MOD])]] at h
  simp only [unwrap, Outcome.bind] at h
  by_cases hden : den = 0
  · rw [show checked_ceil_div 0 den = none by
        unfold checked_ceil_div
        rw [if_pos hden]] at h
    simp [unwrap, Outcome.bind] at h
  · rw [show checked_ceil_div 0 den = some 0 by
        unfold checked_ceil_div
        rw [if_neg hden]
        exact congrArg some (Nat.div_eq_of_lt (by omega))] at h
    simp only [unwrap, Outcome.bind] at h
    rw [show checked_sub amt 0 = some amt by
        unfold checked_sub
        rw [if_pos (Nat.zero_le _), Nat.sub_zero]] at h
    simp only [unwrap, Outcome.bind] at h
    obtain ⟨out, hout, h⟩ := bind_ok h
    obtain ⟨-, hr⟩ := as_u64_ok h
    rw [hr]
    exact hout

/-- With a zero fee numerator, a returning exact-output computation returns
exactly the no-fee required input (the fee gross-up is the identity). -/
theorem swap_exact_amount_zero_fee_base_out {pc coin den amt r : Nat}
    {dir : SwapDirection}
    (h : swap_exact_amount pc coin 0 den dir amt false = .ok r) :
    Calculator.swap_token_amount_base_out amt pc coin dir = .ok r := by
  unfold swap_exact_amount at h
  rw [if_neg (by simp)] at h
  obtain ⟨inB, hinB, h⟩ := bind_ok h
  by_cases hmul : inB * den < U128_MOD
  · rw [show checked_mul_u128 inB den = some (inB * den) by
        unfold checked_mul_u128
        rw [if_pos hmul]] at h
    simp only [unwrap, Outcome.bind] at h
    rw [show checked_sub den 0 = some den by
        unfold checked_sub
        rw [if_pos (Nat.zero_le _), Nat.sub_zero]] at h
    simp only [unwrap, Outcome.bind] at h
    by_cases hden : den = 0
    · rw [show checked_ceil_div (inB * den) den = none by
          unfold checked_ceil_div
          rw [if_pos hden]] at h
      simp [unwrap, Outcome.bind] at h
    · have hpos : 0 < den := Nat.pos_of_ne_zero hden
      rw [show checked_ceil_div (inB * den) den = some inB by
          unfold checked_ceil_div
          rw [if_neg hden]
          refine congrArg some ?_
          rw [show inB * den + den - 1 = den * inB + (den - 1) by
                rw [Nat.mul_comm den inB]; omega,
            Nat.mul_add_div hpos, Nat.div_eq_of_lt (by omega),
            Nat.add_zero]] at h
      simp only [unwrap, Outcome.bind] at h
      obtain ⟨-, hr⟩ := as_u64_ok h
      rw [hr]
      exact hinB
  · rw [show checked_mul_u128 inB den = none by
        unfold checked_mul_u128
        rw [if_neg hmul]] at h
    simp [unwrap, Outcome.bind] at h

/-- Claim C3: the normalization of a decoded on-chain pool account into the
internal `RaydiumAmmInfo` record sets `fees.swap_fee_numerator` to 0
(keeping only the fee denominator), so any swap computation run on the
normalized fees that returns does so having charged a zero swap fee: the
exact-input result equals the no-fee curve output on the full amount, and
the exact-output result equals the no-fee required input. -/
theorem claim_C3_fee_zeroed :
    ∀ v : LiquidityStateV4,
      (RaydiumAmmInfo.from_liquidity_state_v4 v).fees.swap_fee_numerator = 0 ∧
      (RaydiumAmmInfo.from_liquidity_state_v4 v).fees.swap_fee_denominator =
        v.swap_fee_denominator ∧
      (∀ (pc coin amt r : Nat) (dir : SwapDirection),
        swap_exact_amount pc coin
            (RaydiumAmmInfo.from_liquidity_state_v4 v).fees.swap_fee_numerator
            (RaydiumAmmInfo.from_liquidity_state_v4 v).fees.swap_fee_denominator
            dir amt true = .ok r →
          Calculator.swap_token_amount_base_in amt pc coin dir = .ok r) ∧
      (∀ (pc coin amt r : Nat) (dir : SwapDirection),
        swap_exact_amount pc coin
            (RaydiumAmmInfo.from_liquidity_state_v4 v).fees.swap_fee_numerator
            (RaydiumAmmInfo.from_liquidity_state_v4 v).fees.swap_fee_denominator
            dir amt false = .ok r →
          Calculator.swap_token_amount_base_out amt pc coin dir = .ok r) :=
  fun _v =>
    ⟨rfl, rfl,
      fun _pc _coin _amt _r _dir h => swap_exact_amount_zero_fee_base_in h,
      fun _pc _coin _amt _r _dir h => swap_exact_amount_zero_fee_base_out h⟩

/-- Witness for C3: the sample pool state (on-chain fee 25/10000) is
normalized to fee 0/10000, and the exact-input computation at reserves
(2,000,000 pc / 1,000,000 coin) with amount 10,000 feeds the full amount to
the curve. -/
theorem claim_C3_fee_zeroed_witness :
    Calculator.swap_token_amount_base_in 10000 2000000 1000000 .Coin2PC =
      .ok 19802 :=
  (claim_C3_fee_zeroed sample_state).2.2.1 2000000 1000000 10000 19802
    .Coin2PC (by decide)

/-- Claim C4 counterexample: a pool whose pair matches the requested pair
in forward order is selected even though its program id differs from the
Raydium V4 program id, because in the source's condition the program-id
comparison is conjoined only with the reversed-pair disjunct. -/
theorem claim_C4_counterexample :
    foreign_pool.mint_a = "A" ∧ foreign_pool.mint_b = "B" ∧
    foreign_pool.program_id ≠ RAYDIUM_LIQUIDITY_POOL_V4_PROGRAM_ID ∧
    resolve_pool_id [foreign_pool] "A" "B" = some "P1" := by
  decide

/-- Claim C4 (amended): the resolver selects the first pool of the
liquidity-descending page such that either its pair equals the requested
pair in forward order — regardless of program id — or its pair equals the
requested pair in reversed order and its program id equals the V4 program
id; among qualifying pools the earliest (highest liquidity-sort rank) is
chosen. -/
theorem claim_C4_amended :
    (∀ (pools : List ApiV3StandardPool) (input output : Pubkey),
      resolve_pool_id pools input output =
        Option.map (fun p => p.id)
          (List.find? (fun p => pool_matches p input output) pools)) ∧
    (∀ (pool : ApiV3StandardPool) (rest : List ApiV3StandardPool)
        (input output : Pubkey),
      pool_matches pool input output = true →
        resolve_pool_id (pool :: rest) input output = some pool.id) ∧
    (∀ (pool : ApiV3StandardPool) (input output : Pubkey),
      pool.mint_a = input → pool.mint_b = output →
        pool_matches pool input output = true) := by
  refine ⟨?_, ?_, ?_⟩
  · intro pools input output
    induction pools with
    | nil => rfl
    | cons p rest ih =>
        by_cases hp : pool_matches p input output = true
        · simp [resolve_pool_id, hp, List.find?_cons_of_pos _ hp]
        · simp [resolve_pool_id, hp, List.find?_cons_of_neg _ hp, ih]
  · intro pool rest input output h
    simp [resolve_pool_id, h]
  · intro pool input output h1 h2
    subst h1
    subst h2
    simp [pool_matches]

/-- Witness for the amended C4 at the concrete foreign-program pool. -/
theorem claim_C4_amended_witness :
    pool_matches foreign_pool "A" "B" = true ∧
    resolve_pool_id (foreign_pool :: []) "A" "B" = some foreign_pool.id :=
  ⟨claim_C4_amended.2.2 foreign_pool "A" "B" rfl rfl,
    claim_C4_amended.2.1 foreign_pool [] "A" "B" (by decide)⟩

/-- Claim C1 counterexample: for a pool whose status code 5 decodes to
`OrderBookOnly` — which grants order-book participation permission — the
reserve step of the quote still returns exactly the two vault balances
(here 100 and 200) and not the spec policy's vault-plus-open-orders
reserves (here open orders (3, 4) would give (103, 204)): the order-book
branch is commented out in the source. -/
theorem claim_C1_counterexample :
    RaydiumStatus.from_u64 amm_status5.status = .ok .OrderBookOnly ∧
    RaydiumStatus.OrderBookOnly.orderbook_permission = true ∧
    quote_reserves 100 200 amm_status5 = .ok (100, 200) ∧
    quote_reserves 100 200 amm_status5 ≠
      .ok (effective_reserves_spec true (100, 200) (3, 4)) := by
  decide

/-- Claim C1 (amended): for every quote computation the effective reserves
used for pricing are exactly the two vault balances — the permission-false
branch of the spec's reserve policy — regardless of the pool's status code
and of any amounts resting in the order book. -/
theorem claim_C1_amended :
    ∀ (pc_amount coin_amount : Nat) (amm : RaydiumAmmInfo)
      (open_orders : Nat × Nat),
      quote_reserves pc_amount coin_amount amm =
        .ok (effective_reserves_spec false (pc_amount, coin_amount)
              open_orders) :=
  fun _pc _coin _amm _oo => rfl

/-- Claim C2: evaluation of the quote operation.  On an input on which
every step succeeds (valid distinct mints, explicit pool, complete
hydration payload, all seven accounts present and decoding), the operation
panics with an empty message — the source's unconditional `panic!("")`
before its `Ok(())` — instead of returning normally; and when the pool
account is missing from the batch result it panics inside
`Option::unwrap` instead of returning a typed error. -/
theorem claim_C2_quote_behaviour :
    RaydiumAmm.quote quote_env_ok sample_swap_input = .panic "" ∧
    RaydiumAmm.quote quote_env_missing sample_swap_input =
      .panic unwrapNoneMsg := by
  decide

/-- Claim C6 witness: the C5-scenario numbers, with threshold 19,555 not
exceeding the raw quote 19,753. -/
theorem claim_C6_threshold_le_witness :
    RaydiumAmm.swap_with_slippage 2000000 1000000 25 10000 .Coin2PC 10000
        true 100 = .ok (19753, 19555) ∧
    (19555 : Nat) ≤ 19753 :=
  ⟨by decide,
    claim_C6_threshold_le 2000000 1000000 25 10000 10000 100 19753 19555
      .Coin2PC (by decide)⟩

/-- Claim C7 witness: the C5-scenario reserves with slippage 0 give a
threshold equal to the raw quote. -/
theorem claim_C7_zero_slippage_witness :
    RaydiumAmm.swap_with_slippage 2000000 1000000 25 10000 .Coin2PC 10000
        true 0 = .ok (19753, 19753) ∧
    (19753 : Nat) = 19753 :=
  ⟨by decide,
    claim_C7_zero_slippage 2000000 1000000 25 10000 10000 19753 19753
      .Coin2PC true (by decide)⟩

/-- Claim C8 counterexample: a notification with a transaction body and
metadata whose `err` field is set, on which classification does not return
an error value: the message's account-key list is empty, so the raw
`account_keys[0]` index panics before the metadata is consulted. -/
theorem claim_C8_counterexample :
    ((erring_notification.transaction.bind fun t => t.meta).bind
        fun m => m.err).isSome = true ∧
    TradeInfoFromToken.from_update erring_notification =
      .panic "index out of bounds: the len is 0 but the index is 0" := by
  decide

/-- Claim C8 (amended): for a notification with a transaction body and
metadata whose `err` field is set, classification never produces a
TradeRecord; and provided the statements executed before the metadata check
do not panic (32-byte blockhash, non-empty account-key list), it returns an
error value. -/
theorem claim_C8_amended :
    ∀ (u : SubscribeUpdateTransaction) (t : TransactionInfo)
      (m : TransactionMeta),
      u.transaction = some t → t.meta = some m → m.err.isSome = true →
        (∀ rec, TradeInfoFromToken.from_update u ≠ .ok rec) ∧
        (message_preamble_ok t →
          ∃ e, TradeInfoFromToken.from_update u = .err e) := by
  intro u t m h1 h2 h3
  obtain ⟨e0, he0⟩ := Option.isSome_iff_exists.mp h3
  cases htx : t.transaction with
  | none =>
      have hfu : TradeInfoFromToken.from_update u =
          .err "Failed to get recent blockhash" := by
        simp [TradeInfoFromToken.from_update, h1, htx]
      exact ⟨fun rec h => by rw [hfu] at h; exact Outcome.noConfusion h,
        fun _ => ⟨_, hfu⟩⟩
  | some inner =>
      cases hmsg : inner.message with
      | none =>
          have hfu : TradeInfoFromToken.from_update u =
              .err "Failed to get recent blockhash" := by
            simp [TradeInfoFromToken.from_update, h1, htx, hmsg]
          exact ⟨fun rec h => by rw [hfu] at h; exact Outcome.noConfusion h,
            fun _ => ⟨_, hfu⟩⟩
      | some message =>
          by_cases hlen : message.recent_blockhash.length = 32
          · cases hkeys : message.account_keys with
            | nil =>
                have hfu : TradeInfoFromToken.from_update u =
                    .panic "index out of bounds: the len is 0 but the index is 0" := by
                  simp [TradeInfoFromToken.from_update, h1, htx, hmsg, hlen,
                    hkeys]
                refine
                  ⟨fun rec h => by rw [hfu] at h; exact Outcome.noConfusion h,
                    fun hpre => ?_⟩
                have hp := hpre
                simp [message_preamble_ok, htx, hmsg] at hp
                exact absurd hkeys hp.2
            | cons key0 rest =>
                cases key0 with
                | none =>
                    have hfu : TradeInfoFromToken.from_update u =
                        .err "Failed to parse target pubkey" := by
                      simp [TradeInfoFromToken.from_update, h1, htx, hmsg,
                        hlen, hkeys]
                    exact
                      ⟨fun rec h => by
                          rw [hfu] at h; exact Outcome.noConfusion h,
                        fun _ => ⟨_, hfu⟩⟩
                | some target =>
                    have hfu : TradeInfoFromToken.from_update u =
                        .err "Error in transaction" := by
                      simp [TradeInfoFromToken.from_update, h1, htx, hmsg,
                        hlen, hkeys, h2, he0]
                    exact
                      ⟨fun rec h => by
                          rw [hfu] at h; exact Outcome.noConfusion h,
                        fun _ => ⟨_, hfu⟩⟩
          · have hfu : TradeInfoFromToken.from_update u =
                .panic "failed to build a hash from a slice of the wrong length" := by
              simp [TradeInfoFromToken.from_update, h1, htx, hmsg, hlen]
            refine
              ⟨fun rec h => by rw [hfu] at h; exact Outcome.noConfusion h,
                fun hpre => ?_⟩
            have hp := hpre
            simp [message_preamble_ok, htx, hmsg] at hp
            exact absurd hp.1 hlen

/-- Claim C8 (amended) witness: with a well-formed preamble and erring
metadata the classifier returns an error value. -/
theorem claim_C8_amended_witness :
    ∃ e, TradeInfoFromToken.from_update erring_ok_notification = .err e :=
  (claim_C8_amended erring_ok_notification erring_ok_tinfo erring_ok_meta
      rfl rfl rfl).2 (by exact ⟨by decide, by decide⟩)

/-- Claim C9: every successfully classified notification has direction Buy
when the target's post-amount of the traded mint exceeds its pre-amount,
Sell when it is smaller, and Unknown when equal; and the concrete spec
example (pre: base 10 / mint X 5, post: base 8 / mint X 7) classifies as a
Buy of mint X with sol 10 → 8 and token 5 → 7. -/
theorem claim_C9_direction :
    (∀ (u : SubscribeUpdateTransaction) (rec : TradeInfoFromToken),
      TradeInfoFromToken.from_update u = .ok rec →
        rec.trade_type =
          (if rec.token_amount_list.token_post_amount >
              rec.token_amount_list.token_pre_amount then TradeType.Buy
            else if rec.token_amount_list.token_pre_amount >
                rec.token_amount_list.token_post_amount then TradeType.Sell
            else TradeType.Unknown)) ∧
    TradeInfoFromToken.from_update buy_notification = .ok buy_record ∧
    buy_record.trade_type = .Buy ∧
    buy_record.mint = "X" ∧
    buy_record.sol_amount_list.sol_pre_amount = 10 ∧
    buy_record.sol_amount_list.sol_post_amount = 8 ∧
    buy_record.token_amount_list.token_pre_amount = 5 ∧
    buy_record.token_amount_list.token_post_amount = 7 := by
  refine ⟨?_, by decide, by decide, rfl, rfl, rfl, rfl, rfl⟩
  intro u rec h
  simp only [TradeInfoFromToken.from_update] at h
  repeat' split at h
  all_goals simp only [Outcome.ok.injEq, reduceCtorEq] at h
  all_goals subst h
  all_goals dsimp only
  all_goals split <;> simp_all

/-- Claim C9 witness: the general direction law applied to the concrete
spec example. -/
theorem claim_C9_direction_witness :
    buy_record.trade_type =
      (if buy_record.token_amount_list.token_post_amount >
          buy_record.token_amount_list.token_pre_amount then TradeType.Buy
        else if buy_record.token_amount_list.token_pre_amount >
            buy_record.token_amount_list.token_post_amount then TradeType.Sell
        else TradeType.Unknown) :=
  claim_C9_direction.1 buy_notification buy_record (by decide)

end CopyBot
